import Mathlib

/-!
Shallow embedding of `src/katsdpcontroller/sensor_proxy.py`, covering the
sensor-mirroring state machine (`SensorWatcher`), the Prometheus observer
update logic (`PrometheusObserver.__call__`, `_reading_to_float`) and the
observer bookkeeping of `PrometheusWatcher`.

Python floats are modelled as rationals (the claims only use exact small
values and comparisons), byte strings as `String`, and dictionaries as
association lists with dictionary-style insert/pop/update operations.
-/

namespace SensorProxy

/-- Sensor status, from `aiokatcp.Sensor.Status` (numeric codes 0..6). -/
inductive Status where
  | unknown
  | nominal
  | warn
  | error
  | failure
  | unreachable
  | inactive
deriving DecidableEq

/-- `Status.valid_value()` from aiokatcp: true for NOMINAL, WARN and ERROR. -/
def Status.validValue : Status → Bool
  | .nominal => true
  | .warn => true
  | .error => true
  | _ => false

/-- The numeric code of a status (`reading.status.value` in the source). -/
def Status.code : Status → ℚ
  | .unknown => 0
  | .nominal => 1
  | .warn => 2
  | .error => 3
  | .failure => 4
  | .unreachable => 5
  | .inactive => 6

/-- A decoded sensor value as seen by `_reading_to_float`: either a member of
a declared enum domain (the domain is `list(type(value))`, in declaration
order) or a plain numeric value. -/
inductive SensorValue where
  | enumVal (domain : List String) (member : String)
  | numVal (x : ℚ)
deriving DecidableEq

/-- A sensor reading: value, status and timestamp (`aiokatcp.Reading`). -/
structure Reading where
  value : SensorValue
  status : Status
  timestamp : ℚ
deriving DecidableEq

/-- `_reading_to_float`: an enum value maps to its index in the declared
domain (first occurrence, as `list.index` does), with -1 substituted when the
value is absent (the `except ValueError` branch); a numeric value maps to
itself. Total: never raises for enum inputs. -/
def readingToFloat (reading : Reading) : ℚ :=
  match reading.value with
  | .enumVal domain member =>
      match domain.indexOf? member with
      | some idx => (idx : ℚ)
      | none => -1
  | .numVal x => x

/-- The three supported metric kinds (`type(self._value_metric).__name__`). -/
inductive MetricType where
  | gauge
  | counter
  | histogram
deriving DecidableEq

/-- Mutable observer state: `_old_value` (initially 0.0) and
`_old_timestamp` (initially None). -/
structure ObsState where
  oldValue : ℚ
  oldTimestamp : Option ℚ
deriving DecidableEq

/-- Initial observer state set up in `PrometheusObserver.__init__`. -/
def obsInit : ObsState := { oldValue := 0, oldTimestamp := none }

/-- Operations emitted towards the Prometheus series: `set` on the status
series, and `set`/`inc`/`observe` on the value series. -/
inductive MetricOp where
  | setStatus (x : ℚ)
  | setValue (x : ℚ)
  | incValue (x : ℚ)
  | observeValue (x : ℚ)
deriving DecidableEq

/-- `PrometheusObserver.__call__`: returns the new observer state and the
list of metric operations performed, in order.  Transcribed branch by branch
from the source (status series always set first; gauge sets when valid;
counter increments by the delta unless the value went backwards; histogram
observes when valid and the timestamp changed; `_old_value` updated only when
valid; `_old_timestamp` updated always). -/
def observerCall (mt : MetricType) (s : ObsState) (r : Reading) :
    ObsState × List MetricOp :=
  let valid := r.status.validValue
  let value := if valid then readingToFloat r else 0
  let timestamp := r.timestamp
  let statusOps := [MetricOp.setStatus r.status.code]
  let valueOps :=
    match mt with
    | .gauge =>
        if valid then [MetricOp.setValue value] else []
    | .counter =>
        if valid then
          if value < s.oldValue then
            -- counter went backwards: no delta sent, baseline still updated
            []
          else
            [MetricOp.incValue (value - s.oldValue)]
        else []
    | .histogram =>
        if valid && !(some timestamp == s.oldTimestamp) then
          [MetricOp.observeValue value]
        else []
  let s1 := if valid then { s with oldValue := value } else s
  let s2 := { s1 with oldTimestamp := some timestamp }
  (s2, statusOps ++ valueOps)

/-- Model of the concrete label-instance pair of Prometheus series an
observer writes to: current value of the value series, current value of the
status series, and the list of histogram observations recorded so far. -/
structure SeriesState where
  value : ℚ
  statusVal : ℚ
  observations : List ℚ
deriving DecidableEq

/-- Initial series state (Prometheus series start at 0, no observations). -/
def seriesInit : SeriesState := { value := 0, statusVal := 0, observations := [] }

/-- Effect of one metric operation on the series pair. -/
def applyOp (st : SeriesState) (op : MetricOp) : SeriesState :=
  match op with
  | .setStatus x => { st with statusVal := x }
  | .setValue x => { st with value := x }
  | .incValue x => { st with value := st.value + x }
  | .observeValue x => { st with observations := st.observations ++ [x] }

/-- Apply a list of metric operations in order. -/
def applyOps (st : SeriesState) (ops : List MetricOp) : SeriesState :=
  ops.foldl applyOp st

/-- Feed a list of readings through an observer, accumulating both the
observer state and the series state. -/
def runReadings (mt : MetricType) : ObsState × SeriesState → List Reading → ObsState × SeriesState
  | p, [] => p
  | (os, ss), r :: rs =>
      let q := observerCall mt os r
      runReadings mt (q.1, applyOps ss q.2) rs

/-! ## The sensor mirror (`SensorWatcher`)

Sensor values on the wire are byte strings, modelled as `String`.  The three
dictionaries kept in lockstep are the base class's `self.sensors`, the shadow
registry `self.orig_sensors` and the destination registry
`self.server.sensors`, all keyed by rewritten (destination) name. -/

/-- Sensor type tag.  Only three facts about `stype` are used by the source:
whether it `is bytes` (gui-url rewriting), whether its `type_name` is
`"discrete"` together with its enum domain (`_mark_unreachable`), and its
default value. -/
inductive SType where
  | bytesT
  | discreteT (domain : List String)
  | otherT (default : String)
deriving DecidableEq

/-- `sensor.stype is bytes`. -/
def SType.isBytes : SType → Bool
  | .bytesT => true
  | _ => false

/-- `sensor.type_name == "discrete"`. -/
def SType.isDiscrete : SType → Bool
  | .discreteT _ => true
  | _ => false

/-- Modelled from the spec: the type's zero/default value
(`aiokatcp.core.get_type(sensor.stype).default(sensor.stype)`, which lives in
the aiokatcp collaborator): empty bytes for byte strings, the first enum
member for discrete types, the carried default otherwise. -/
def SType.defaultVal : SType → String
  | .bytesT => ""
  | .discreteT domain => domain.headD ""
  | .otherT d => d

/-- `sensor.stype(b"fail")`: succeeds exactly when `"fail"` is a member of
the discrete type's domain, otherwise raises `ValueError` (modelled as
`none`). -/
def SType.failValue : SType → Option String
  | .discreteT domain => if "fail" ∈ domain then some "fail" else none
  | _ => none

/-- A mirrored sensor: its type plus its current reading (value on the wire,
status, timestamp). -/
structure SensorData where
  stype : SType
  value : String
  status : Status
  timestamp : ℚ
deriving DecidableEq

/-- `CloseAction`: what to do with mirrored sensors when the connection
closes. -/
inductive CloseAction where
  | remove
  | unreachable
deriving DecidableEq

/-- Dictionary read `d.get(k)`: the first binding of `k`, if any. -/
def alGet {α : Type} (j : String) : List (String × α) → Option α
  | [] => none
  | (k, v) :: t => if j = k then some v else alGet j t

/-- Dictionary `d.pop(k, None)`: drop every binding of `k`. -/
def alPop {α : Type} (k : String) : List (String × α) → List (String × α)
  | [] => []
  | (a, v) :: t => if a = k then alPop k t else (a, v) :: alPop k t

/-- Dictionary assignment `d[k] = v` on an association list: any existing
binding of `k` is replaced. -/
def alSet {α : Type} (k : String) (v : α) (l : List (String × α)) :
    List (String × α) :=
  (k, v) :: alPop k l

/-- In-place mutation of the sensor bound to `k` (`sensor.set_value`, or the
shared-object aliasing of one sensor living in several registries): a no-op
when `k` is unbound. -/
def alUpdate {α : Type} (k : String) (f : α → α) :
    List (String × α) → List (String × α)
  | [] => []
  | (a, v) :: t =>
      if a = k then (a, f v) :: alUpdate k f t else (a, v) :: alUpdate k f t

/-- Static configuration of a `SensorWatcher`: name prefix, explicit rename
entries, optional gui-url rewrite function (given the destination name and
the shadow sensor, returns the replacement value), filter predicate and close
action.  Single-string rename entries of the source are already normalised to
one-element lists. -/
structure MirrorConfig where
  pfx : String
  renames : List (String × List String)
  rewriteGuiUrls : Option (String → SensorData → String)
  filter : String → SType → Bool
  closeAction : CloseAction

/-- `SensorWatcher.rewrite_name`: the explicit rename entry if present,
otherwise prefix concatenation. -/
def rewriteName (cfg : MirrorConfig) (name : String) : List String :=
  match alGet name cfg.renames with
  | some names => names
  | none => [cfg.pfx ++ name]

/-- Mirror state: the set of upstream names currently added (and having
passed the filter), the base class's `self.sensors`, the shadow registry
`orig_sensors`, the destination registry `server.sensors`, the dirty flag
`_need_notify`, and the number of times `notify` has been invoked. -/
structure MirrorState where
  upstream : List String
  sensors : List (String × SensorData)
  origSensors : List (String × SensorData)
  serverSensors : List (String × SensorData)
  needNotify : Bool
  notifyCount : ℕ

/-- The state of a freshly constructed watcher. -/
def initState : MirrorState :=
  { upstream := [], sensors := [], origSensors := [], serverSensors := [],
    needNotify := false, notifyCount := 0 }

/-- Modelled from the spec: the sensor object the aiokatcp base class creates
on `sensor_added` (default value for the type, UNKNOWN status).  The model
fixes the creation timestamp at 0; no claim depends on it. -/
def mkFresh (st : SType) : SensorData :=
  { stype := st, value := st.defaultVal, status := Status.unknown, timestamp := 0 }

/-- `name.endswith(suffix)`, computed on the underlying character lists. -/
def strEndsWith (s suffix : String) : Bool :=
  List.isSuffixOf suffix.data s.data

/-- The gui-url rewrite condition of `sensor_added`/`sensor_updated`:
`self.rewrite_gui_urls is not None and name.endswith(".gui-urls") and
sensor.stype is bytes`. -/
def guiCond (cfg : MirrorConfig) (rn : String) (st : SType) : Bool :=
  cfg.rewriteGuiUrls.isSome && strEndsWith rn ".gui-urls" && st.isBytes

/-- Apply the configured rewrite function to a shadow sensor (only ever
called under `guiCond`, which implies the function is present). -/
def applyRewrite (cfg : MirrorConfig) (rn : String) (sd : SensorData) : String :=
  match cfg.rewriteGuiUrls with
  | some f => f rn sd
  | none => sd.value

/-- The sensor inserted into the destination registry by `sensor_added`: the
shadow sensor itself, or a copy with the rewritten value when `guiCond`
holds.  The copying constructor also assigns a fresh wall-clock timestamp,
which is not modelled (no claim depends on it). -/
def destData (cfg : MirrorConfig) (rn : String) (sd : SensorData) : SensorData :=
  if guiCond cfg rn sd.stype then { sd with value := applyRewrite cfg rn sd }
  else sd

/-- `SensorWatcher.sensor_added` (with the aiokatcp base-class part modelled
from the spec: the event only takes effect when the filter passes, and the
base class creates one fresh sensor per rewritten name in `self.sensors`).
The source's single loop over rewritten names is linearised into one fold per
registry; the iterations touch only the registry entry of their own rewritten
name, so the result is the same.  `_need_notify` is set outside the loop,
hence even when the rename list is empty. -/
def sensorAdded (cfg : MirrorConfig) (name : String) (st : SType)
    (s : MirrorState) : MirrorState :=
  if cfg.filter name st then
    let fresh := mkFresh st
    let rns := rewriteName cfg name
    { upstream := s.upstream.insert name
      sensors := rns.foldl (fun m rn => alSet rn fresh m) s.sensors
      origSensors := rns.foldl (fun m rn => alSet rn fresh m) s.origSensors
      serverSensors :=
        rns.foldl (fun m rn => alSet rn (destData cfg rn fresh) m) s.serverSensors
      needNotify := true
      notifyCount := s.notifyCount }
  else s

/-- `SensorWatcher.sensor_removed` together with `_sensor_removed`: every
rewritten name is popped from both registries (and, per the base class, from
`self.sensors`); `_need_notify` is set once per rewritten name, hence not at
all when the rename list is empty. -/
def sensorRemoved (cfg : MirrorConfig) (name : String) (s : MirrorState) :
    MirrorState :=
  let rns := rewriteName cfg name
  { upstream := s.upstream.filter (fun n => n != name)
    sensors := rns.foldl (fun m rn => alPop rn m) s.sensors
    origSensors := rns.foldl (fun m rn => alPop rn m) s.origSensors
    serverSensors := rns.foldl (fun m rn => alPop rn m) s.serverSensors
    needNotify := if rns.isEmpty then s.needNotify else true
    notifyCount := s.notifyCount }

/-- `SensorWatcher.sensor_updated`.  The base class writes the new reading
into `self.sensors[rn]`; because `sensor_added` stored the very same object
in `orig_sensors` (and, when no gui rewrite applied, in `server.sensors`),
those registries see the same reading.  A gui-rewritten destination sensor is
a distinct object and receives the explicitly rewritten value via
`set_value`, computed from the already-updated shadow sensor.  Updates of
unbound names are modelled as no-ops (the collaborator only reports updates
for sensors it added). -/
def sensorUpdated (cfg : MirrorConfig) (name : String) (value : String)
    (status : Status) (timestamp : ℚ) (s : MirrorState) : MirrorState :=
  let rns := rewriteName cfg name
  let upd : SensorData → SensorData := fun sd =>
    { sd with value := value, status := status, timestamp := timestamp }
  { s with
    sensors := rns.foldl (fun m rn => alUpdate rn upd m) s.sensors
    origSensors := rns.foldl (fun m rn => alUpdate rn upd m) s.origSensors
    serverSensors := rns.foldl (fun m rn =>
      alUpdate rn (fun sd =>
        if guiCond cfg rn sd.stype then
          { sd with
            value := applyRewrite cfg rn (upd sd), status := status,
            timestamp := timestamp }
        else upd sd) m) s.serverSensors }

/-- `SensorWatcher.batch_stop`, with the notification callback allowed to
raise (`notifyRaises`).  Returns the state after the call together with a
flag saying whether an exception propagated out of `batch_stop`.  The
callback is invoked (counted) before it raises; the assignment
`self._need_notify = False` is only reached when the callback did not
raise. -/
def batchStopE (notifyRaises : Bool) (s : MirrorState) : MirrorState × Bool :=
  if s.needNotify then
    let s1 := { s with notifyCount := s.notifyCount + 1 }
    if notifyRaises then (s1, true)
    else ({ s1 with needNotify := false }, false)
  else ({ s with needNotify := false }, false)

/-- The generic part of `_mark_unreachable`: unless the sensor is already
UNREACHABLE, reset it to its type's default value with status UNREACHABLE. -/
def markUnreachableGeneric (sd : SensorData) : SensorData :=
  if sd.status ≠ Status.unreachable then
    { sd with value := sd.stype.defaultVal, status := Status.unreachable }
  else sd

/-- `SensorWatcher._mark_unreachable`: a destination sensor named by the
rename of `"device-status"` whose type is discrete is set to its `"fail"`
value with status ERROR when that value exists in its domain; in every other
case (including `ValueError` from a missing `"fail"` member) control falls
through to the generic default-value/UNREACHABLE path.  The real `set_value`
also refreshes the timestamp to the current wall clock, which is not
modelled. -/
def markUnreachable (cfg : MirrorConfig) (name : String) (sd : SensorData) :
    SensorData :=
  if name ∈ rewriteName cfg "device-status" ∧ sd.stype.isDiscrete = true then
    match sd.stype.failValue with
    | some fv => { sd with value := fv, status := Status.error }
    | none => markUnreachableGeneric sd
  else markUnreachableGeneric sd

/-- `SensorWatcher.state_updated` restricted to the CLOSED transition: inside
a synthetic batch, every rewritten name known to the base class is either
marked unreachable in both registries or removed from both registries
(`_sensor_removed`, which sets `_need_notify` per name but does not touch
`self.sensors`).  The per-name loop is linearised into one fold per registry,
as in `sensorAdded`.  The trailing `batch_stop` runs with a non-raising
callback. -/
def stateUpdatedClosed (cfg : MirrorConfig) (s : MirrorState) : MirrorState :=
  let names := s.sensors.map Prod.fst
  let s1 :=
    match cfg.closeAction with
    | .unreachable =>
        { s with
          serverSensors :=
            names.foldl (fun m n => alUpdate n (markUnreachable cfg n) m) s.serverSensors
          origSensors :=
            names.foldl (fun m n => alUpdate n (markUnreachable cfg n) m) s.origSensors }
    | .remove =>
        { s with
          serverSensors := names.foldl (fun m n => alPop n m) s.serverSensors
          origSensors := names.foldl (fun m n => alPop n m) s.origSensors
          needNotify := if names.isEmpty then s.needNotify else true }
  (batchStopE false s1).1

/-- The mirror's input events.  `batch_start` is a no-op on the modelled
state and is omitted. -/
inductive Event where
  | add (name : String) (stype : SType)
  | remove (name : String)
  | update (name : String) (value : String) (status : Status) (timestamp : ℚ)
  | batchStop
  | stateClosed
deriving DecidableEq

/-- One step of the mirror state machine. -/
def step (cfg : MirrorConfig) (s : MirrorState) : Event → MirrorState
  | .add name st => sensorAdded cfg name st s
  | .remove name => sensorRemoved cfg name s
  | .update name v st ts => sensorUpdated cfg name v st ts s
  | .batchStop => (batchStopE false s).1
  | .stateClosed => stateUpdatedClosed cfg s

/-- Run the mirror over a trace of events. -/
def run (cfg : MirrorConfig) (s : MirrorState) (tr : List Event) : MirrorState :=
  tr.foldl (step cfg) s

/-- Which events set the dirty flag: a filter-passing add (unconditionally,
even with an empty rename list), and a remove whose rename list is
non-empty. -/
def dirties (cfg : MirrorConfig) : Event → Bool
  | .add name st => cfg.filter name st
  | .remove name => !(rewriteName cfg name).isEmpty
  | _ => false

/-! ## The observer bookkeeping of `PrometheusWatcher`

Only the key/value structure of `_observers` matters to the claims: each
entry records whether the factory produced a `PrometheusInfo` (an observer,
`true`) or declined (`None`, `false`). -/

/-- `PrometheusWatcher` state: the names in the watched `SensorSet` and the
`_observers` dictionary (value `true` when a real observer is held, `false`
for a stored `None`). -/
structure PWState where
  registry : List String
  observers : List (String × Bool)

/-- `PrometheusWatcher._added`: any prior observer for the name is closed,
then the factory's verdict is stored (a `None` is stored as an entry, not
skipped). -/
def watcherAdded (factory : String → Bool) (name : String) (w : PWState) :
    PWState :=
  { w with observers := alSet name (factory name) w.observers }

/-- `PrometheusWatcher._removed`: pop the entry, closing the observer if one
was held. -/
def watcherRemoved (name : String) (w : PWState) : PWState :=
  { w with observers := alPop name w.observers }

/-- Events on the watched `SensorSet`. -/
inductive PWEvent where
  | addS (name : String)
  | removeS (name : String)
deriving DecidableEq

/-- Modelled from the spec: the watched registry delivers its add/remove
callbacks synchronously from within the mutation, so one registry mutation
and its callback form one step.  Removing an absent sensor fires no
callback. -/
def pwStep (factory : String → Bool) (w : PWState) : PWEvent → PWState
  | .addS name =>
      watcherAdded factory name { w with registry := w.registry.insert name }
  | .removeS name =>
      if name ∈ w.registry then
        watcherRemoved name
          { w with registry := w.registry.filter (fun n => n != name) }
      else w

/-- `PrometheusWatcher.__init__`: starting from the sensors already present,
`_added` is invoked for each of them. -/
def pwInit (factory : String → Bool) (initial : List String) : PWState :=
  initial.foldl (fun w n => watcherAdded factory n w)
    { registry := initial, observers := [] }

/-- Run the watcher over a trace of registry events. -/
def pwRun (factory : String → Bool) (w : PWState) (evs : List PWEvent) : PWState :=
  evs.foldl (pwStep factory) w

/-! ## Association-list lemmas -/

theorem alGet_alPop {α : Type} (k j : String) (l : List (String × α)) :
    alGet j (alPop k l) = if j = k then none else alGet j l := by
  induction l with
  | nil => simp [alGet, alPop]
  | cons p t ih =>
      obtain ⟨a, v⟩ := p
      by_cases hak : a = k
      · subst hak
        by_cases hja : j = a
        · subst hja; simp [alPop, alGet, ih]
        · simp [alPop, alGet, hja, ih]
      · by_cases hja : j = a
        · subst hja; simp [alPop, alGet, hak, ih]
        · simp [alPop, alGet, hak, hja, ih]

theorem alGet_alSet {α : Type} (k j : String) (v : α) (l : List (String × α)) :
    alGet j (alSet k v l) = if j = k then some v else alGet j l := by
  by_cases hjk : j = k <;> simp [alSet, alGet, hjk, alGet_alPop]

theorem alGet_alUpdate {α : Type} (k j : String) (f : α → α)
    (l : List (String × α)) :
    alGet j (alUpdate k f l) = if j = k then (alGet j l).map f
      else alGet j l := by
  induction l with
  | nil => simp [alGet, alUpdate]
  | cons p t ih =>
      obtain ⟨a, v⟩ := p
      by_cases hak : a = k
      · subst hak
        by_cases hja : j = a <;> simp [alUpdate, alGet, hja, ih]
      · by_cases hja : j = a
        · subst hja; simp [alUpdate, alGet, hak, ih]
        · simp [alUpdate, alGet, hak, hja, ih]

theorem alGet_foldl_alSet {α : Type} (g : String → α) (rns : List String)
    (m : List (String × α)) (j : String) :
    alGet j (rns.foldl (fun m rn => alSet rn (g rn) m) m)
      = if j ∈ rns then some (g j) else alGet j m := by
  induction rns generalizing m with
  | nil => simp
  | cons a t ih =>
      simp only [List.foldl_cons, ih, alGet_alSet]
      by_cases hjt : j ∈ t
      · simp [hjt]
      · by_cases hja : j = a
        · subst hja; simp [hjt]
        · simp [hjt, hja]

theorem alGet_foldl_alPop {α : Type} (rns : List String)
    (m : List (String × α)) (j : String) :
    alGet j (rns.foldl (fun m rn => alPop rn m) m)
      = if j ∈ rns then none else alGet j m := by
  induction rns generalizing m with
  | nil => simp
  | cons a t ih =>
      simp only [List.foldl_cons, ih, alGet_alPop]
      by_cases hjt : j ∈ t
      · simp [hjt]
      · by_cases hja : j = a
        · subst hja; simp [hjt]
        · simp [hjt, hja]

theorem alGet_foldl_alUpdate_isSome {α : Type} (f : String → α → α)
    (rns : List String) (m : List (String × α)) (j : String) :
    (alGet j (rns.foldl (fun m rn => alUpdate rn (f rn) m) m)).isSome
      = (alGet j m).isSome := by
  induction rns generalizing m with
  | nil => rfl
  | cons a t ih =>
      simp only [List.foldl_cons, ih, alGet_alUpdate]
      by_cases hja : j = a
      · simp [hja]
      · simp [hja]

theorem alGet_foldl_alUpdate_nodup {α : Type} (f : String → α → α)
    (rns : List String) (hnd : rns.Nodup) (m : List (String × α)) (j : String) :
    alGet j (rns.foldl (fun m rn => alUpdate rn (f rn) m) m)
      = if j ∈ rns then (alGet j m).map (f j) else alGet j m := by
  induction rns generalizing m with
  | nil => simp
  | cons a t ih =>
      have hat : a ∉ t := (List.nodup_cons.mp hnd).1
      have hndt : t.Nodup := (List.nodup_cons.mp hnd).2
      simp only [List.foldl_cons, ih hndt, alGet_alUpdate]
      by_cases hja : j = a
      · subst hja; simp [hat]
      · by_cases hjt : j ∈ t
        · simp [hjt, hja]
        · simp [hjt, hja]

theorem indexOf?_eq_some_of_mem {l : List String} {a : String} (h : a ∈ l) :
    l.indexOf? a = some (l.indexOf a) := by
  induction l with
  | nil => cases h
  | cons x xs ih =>
      by_cases hxa : x = a
      · subst hxa
        simp [List.indexOf?_cons, List.indexOf_cons_self]
      · have hmem : a ∈ xs := by
          rcases List.mem_cons.mp h with h1 | h1
          · exact absurd h1.symm hxa
          · exact h1
        simp [List.indexOf?_cons, hxa, List.indexOf_cons_ne _ hxa, ih hmem]

theorem indexOf?_eq_none_of_not_mem {l : List String} {a : String} (h : a ∉ l) :
    l.indexOf? a = none := by
  rw [List.indexOf?_eq_none_iff]
  intro x hx hxa
  exact h (beq_iff_eq.mp hxa ▸ hx)

/-! ## Claims about `_reading_to_float` -/

/-- Claim C9: a reading whose value is an enum member translates to the
member's ordinal position (first index) within its declared domain, to -1
when the value is not found in the domain, and a non-enum value translates to
itself; the translation is a total function, so it never raises for enum
inputs. -/
theorem c9_reading_to_float (domain : List String) (member : String)
    (st : Status) (ts : ℚ) (x : ℚ) :
    (member ∈ domain →
      readingToFloat ⟨SensorValue.enumVal domain member, st, ts⟩
        = (domain.indexOf member : ℚ))
    ∧ (member ∉ domain →
      readingToFloat ⟨SensorValue.enumVal domain member, st, ts⟩ = -1)
    ∧ readingToFloat ⟨SensorValue.numVal x, st, ts⟩ = x := by
  refine ⟨fun h => ?_, fun h => ?_, rfl⟩
  · simp [readingToFloat, indexOf?_eq_some_of_mem h]
  · simp [readingToFloat, indexOf?_eq_none_of_not_mem h]

/-- Witness for C9 at concrete inputs: member `"b"` of domain
`["a", "b", "c"]` has ordinal 1, and a member absent from its domain yields
-1. -/
theorem c9_reading_to_float_witness :
    readingToFloat ⟨SensorValue.enumVal ["a", "b", "c"] "b", Status.nominal, 0⟩ = 1
    ∧ readingToFloat ⟨SensorValue.enumVal ["a", "b"] "z", Status.nominal, 0⟩ = -1 := by
  constructor
  · have h := (c9_reading_to_float ["a", "b", "c"] "b" Status.nominal 0 0).1
      (by decide)
    rw [h]
    have h1 : List.indexOf "b" ["a", "b", "c"] = 1 := by decide
    rw [h1]
    norm_num
  · exact (c9_reading_to_float ["a", "b"] "z" Status.nominal 0 0).2.1 (by decide)

/-! ## Claims about the Prometheus observer update rules -/

/-- The concrete valid counter reading sequence `[5, 8, 3, 6]` of the spec's
counter-monotonicity test. -/
def counterReadings : List Reading :=
  [⟨SensorValue.numVal 5, Status.nominal, 1⟩,
   ⟨SensorValue.numVal 8, Status.nominal, 2⟩,
   ⟨SensorValue.numVal 3, Status.nominal, 3⟩,
   ⟨SensorValue.numVal 6, Status.nominal, 4⟩]

/-- Claim C1: for a counter-bound observer, a valid reading whose value is at
least the recorded baseline increments the value series by the difference,
while a smaller value applies no increment at all; in both cases the baseline
is set to the new value.  On the sequence `[5, 8, 3, 6]` from baseline 0 the
series takes the values 5, 8, 8, 11 (increments +5, +3, +0, +3), and the
counter series never decreases on any update. -/
theorem c1_counter_updates :
    (∀ (s : ObsState) (r : Reading), r.status.validValue = true →
      (observerCall MetricType.counter s r).1.oldValue = readingToFloat r
      ∧ (s.oldValue ≤ readingToFloat r →
          (observerCall MetricType.counter s r).2
            = [MetricOp.setStatus r.status.code,
               MetricOp.incValue (readingToFloat r - s.oldValue)])
      ∧ (readingToFloat r < s.oldValue →
          (observerCall MetricType.counter s r).2
            = [MetricOp.setStatus r.status.code]))
    ∧ (∀ (s : ObsState) (ss : SeriesState) (r : Reading),
        ss.value ≤ (applyOps ss (observerCall MetricType.counter s r).2).value)
    ∧ (runReadings MetricType.counter (obsInit, seriesInit)
        (counterReadings.take 1)).2.value = 5
    ∧ (runReadings MetricType.counter (obsInit, seriesInit)
        (counterReadings.take 2)).2.value = 8
    ∧ (runReadings MetricType.counter (obsInit, seriesInit)
        (counterReadings.take 3)).2.value = 8
    ∧ (runReadings MetricType.counter (obsInit, seriesInit)
        counterReadings).2.value = 11 := by
  refine ⟨?_, ?_,
    by norm_num [counterReadings, runReadings, observerCall, applyOps,
      applyOp, readingToFloat, obsInit, seriesInit, Status.validValue, Status.code],
    by norm_num [counterReadings, runReadings, observerCall, applyOps,
      applyOp, readingToFloat, obsInit, seriesInit, Status.validValue, Status.code],
    by norm_num [counterReadings, runReadings, observerCall, applyOps,
      applyOp, readingToFloat, obsInit, seriesInit, Status.validValue, Status.code],
    by norm_num [counterReadings, runReadings, observerCall, applyOps,
      applyOp, readingToFloat, obsInit, seriesInit, Status.validValue, Status.code]⟩
  · intro s r hv
    refine ⟨?_, fun hle => ?_, fun hlt => ?_⟩
    · simp [observerCall, hv]
    · have hnlt : ¬ readingToFloat r < s.oldValue := not_lt.mpr hle
      simp [observerCall, hv, hnlt]
    · simp [observerCall, hv, hlt]
  · intro s ss r
    by_cases hv : r.status.validValue = true
    · by_cases hlt : readingToFloat r < s.oldValue
      · simp [observerCall, hv, hlt, applyOps, applyOp]
      · simp [observerCall, hv, hlt, applyOps, applyOp]
        have := not_lt.mp hlt
        linarith
    · have hv2 : r.status.validValue = false := by
        cases h : r.status.validValue
        · rfl
        · exact absurd h hv
      simp [observerCall, hv2, applyOps, applyOp]

/-- Witness for C1 at a concrete input: the first reading of the sequence
(value 5, baseline 0) sets the baseline to 5 and increments the series
by 5. -/
theorem c1_counter_updates_witness :
    (observerCall MetricType.counter obsInit
      ⟨SensorValue.numVal 5, Status.nominal, 1⟩).1.oldValue = 5
    ∧ (observerCall MetricType.counter obsInit
        ⟨SensorValue.numVal 5, Status.nominal, 1⟩).2
      = [MetricOp.setStatus 1, MetricOp.incValue 5] := by
  have h := c1_counter_updates.1 obsInit
    ⟨SensorValue.numVal 5, Status.nominal, 1⟩ (by decide)
  refine ⟨?_, ?_⟩
  · rw [h.1]; norm_num [readingToFloat]
  · have h2 := h.2.1 (by norm_num [obsInit, readingToFloat])
    rw [h2]; norm_num [readingToFloat, obsInit, Status.code]

/-- Claim C5: a histogram-bound observer records one observation equal to the
computed value exactly when the reading is valid and its timestamp differs
from the previously seen one; the last-seen timestamp is updated on every
update (for every metric kind) whether or not the reading was valid.
Concretely, two same-timestamp updates with differing values record exactly
the first value, and an invalid reading at timestamp t suppresses a
subsequent valid reading at the same t. -/
theorem c5_histogram_dedup :
    (∀ (mt : MetricType) (s : ObsState) (r : Reading),
        (observerCall mt s r).1.oldTimestamp = some r.timestamp)
    ∧ (∀ (s : ObsState) (r : Reading),
        (r.status.validValue = true → s.oldTimestamp ≠ some r.timestamp →
          (observerCall MetricType.histogram s r).2
            = [MetricOp.setStatus r.status.code,
               MetricOp.observeValue (readingToFloat r)])
        ∧ (r.status.validValue = false ∨ s.oldTimestamp = some r.timestamp →
          (observerCall MetricType.histogram s r).2
            = [MetricOp.setStatus r.status.code]))
    ∧ (runReadings MetricType.histogram (obsInit, seriesInit)
        [⟨SensorValue.numVal 1, Status.nominal, 10⟩,
         ⟨SensorValue.numVal 2, Status.nominal, 10⟩]).2.observations = [1]
    ∧ (runReadings MetricType.histogram (obsInit, seriesInit)
        [⟨SensorValue.numVal 9, Status.unknown, 5⟩,
         ⟨SensorValue.numVal 7, Status.nominal, 5⟩]).2.observations = [] := by
  refine ⟨?_, ?_, ?_, ?_⟩
  · intro mt s r
    cases mt <;> simp [observerCall]
  · intro s r
    constructor
    · intro hv hne
      have hb : (some r.timestamp == s.oldTimestamp) = false :=
        beq_eq_false_iff_ne.mpr (Ne.symm hne)
      simp [observerCall, hv, hb]
    · intro h
      rcases h with h | h
      · simp [observerCall, h]
      · have hb : (some r.timestamp == s.oldTimestamp) = true :=
          beq_iff_eq.mpr h.symm
        by_cases hv : r.status.validValue = true
        · simp [observerCall, hv, hb]
        · have hv2 : r.status.validValue = false := by
            cases hvv : r.status.validValue
            · rfl
            · exact absurd hvv hv
          simp [observerCall, hv2]
  · norm_num [runReadings, observerCall, applyOps, applyOp, readingToFloat,
      obsInit, seriesInit, Status.validValue, Status.code]
  · norm_num [runReadings, observerCall, applyOps, applyOp, readingToFloat,
      obsInit, seriesInit, Status.validValue, Status.code]

/-- Witness for C5 at a concrete input: a first valid reading at a fresh
timestamp is observed, and a repeat of the same timestamp is not. -/
theorem c5_histogram_dedup_witness :
    (observerCall MetricType.histogram obsInit
      ⟨SensorValue.numVal 3, Status.nominal, 7⟩).2
      = [MetricOp.setStatus 1, MetricOp.observeValue 3]
    ∧ (observerCall MetricType.histogram
        { oldValue := 3, oldTimestamp := some 7 }
        ⟨SensorValue.numVal 4, Status.nominal, 7⟩).2
      = [MetricOp.setStatus 1] := by
  constructor
  · have h := ((c5_histogram_dedup.2.1 obsInit
      ⟨SensorValue.numVal 3, Status.nominal, 7⟩).1 (by decide)
      (by simp [obsInit]))
    rw [h]
    norm_num [readingToFloat, Status.code]
  · have h := ((c5_histogram_dedup.2.1
      { oldValue := 3, oldTimestamp := some 7 }
      ⟨SensorValue.numVal 4, Status.nominal, 7⟩).2 (Or.inr rfl))
    rw [h]
    norm_num [Status.code]

/-- Claim C6: a gauge-bound observer ignores invalid readings for the value
series (the series and the recorded baseline keep their previous values),
while the status series is set to the status's numeric code on every update;
a valid reading sets the series to the computed value.  Concretely, valid 42
followed by an invalid reading leaves the gauge at 42 with the status series
at the new status code. -/
theorem c6_gauge_hold :
    (∀ (s : ObsState) (ss : SeriesState) (r : Reading),
        r.status.validValue = false →
          (applyOps ss (observerCall MetricType.gauge s r).2).value = ss.value
          ∧ (applyOps ss (observerCall MetricType.gauge s r).2).statusVal
              = r.status.code
          ∧ (observerCall MetricType.gauge s r).1.oldValue = s.oldValue)
    ∧ (∀ (s : ObsState) (ss : SeriesState) (r : Reading),
        r.status.validValue = true →
          (applyOps ss (observerCall MetricType.gauge s r).2).value
              = readingToFloat r
          ∧ (applyOps ss (observerCall MetricType.gauge s r).2).statusVal
              = r.status.code)
    ∧ (runReadings MetricType.gauge (obsInit, seriesInit)
        [⟨SensorValue.numVal 42, Status.nominal, 1⟩,
         ⟨SensorValue.numVal 0, Status.failure, 2⟩]).2.value = 42
    ∧ (runReadings MetricType.gauge (obsInit, seriesInit)
        [⟨SensorValue.numVal 42, Status.nominal, 1⟩,
         ⟨SensorValue.numVal 0, Status.failure, 2⟩]).2.statusVal
        = Status.failure.code := by
  refine ⟨?_, ?_, ?_, ?_⟩
  · intro s ss r hv
    refine ⟨?_, ?_, ?_⟩ <;> simp [observerCall, hv, applyOps, applyOp]
  · intro s ss r hv
    refine ⟨?_, ?_⟩ <;> simp [observerCall, hv, applyOps, applyOp]
  · norm_num [runReadings, observerCall, applyOps, applyOp, readingToFloat,
      obsInit, seriesInit, Status.validValue, Status.code]
  · norm_num [runReadings, observerCall, applyOps, applyOp, readingToFloat,
      obsInit, seriesInit, Status.validValue, Status.code]

/-- Witness for C6 at a concrete input: an invalid (FAILURE) reading on a
gauge whose series holds 42 leaves the series at 42, keeps the baseline, and
sets the status series to 4. -/
theorem c6_gauge_hold_witness :
    (applyOps { value := 42, statusVal := 1, observations := [] }
      (observerCall MetricType.gauge { oldValue := 42, oldTimestamp := some 1 }
        ⟨SensorValue.numVal 0, Status.failure, 2⟩).2).value = 42
    ∧ (applyOps { value := 42, statusVal := 1, observations := [] }
        (observerCall MetricType.gauge { oldValue := 42, oldTimestamp := some 1 }
          ⟨SensorValue.numVal 0, Status.failure, 2⟩).2).statusVal = 4 := by
  have h := c6_gauge_hold.1 { oldValue := 42, oldTimestamp := some 1 }
    { value := 42, statusVal := 1, observations := [] }
    ⟨SensorValue.numVal 0, Status.failure, 2⟩ (by decide)
  exact ⟨h.1, by rw [h.2.1]; norm_num [Status.code]⟩

/-! ## Claims about batching and notification -/

/-- A mirror state with a pending (dirty) notification and no calls yet. -/
def dirtyState : MirrorState :=
  { upstream := [], sensors := [], origSensors := [], serverSensors := [],
    needNotify := true, notifyCount := 0 }

/-- Claim C2 counterexample: `batch_stop` contains no try/finally, so when
the notification callback raises, the assignment clearing the dirty flag is
skipped: from a dirty state, a raising `batch_stop` propagates the exception
and LEAVES the dirty flag set, and the following `batch_stop` (with no
further changes in between) invokes the callback a second time — the claim
asserts the flag is cleared and the callback not invoked again. -/
theorem c2_counterexample :
    (batchStopE true dirtyState).2 = true
    ∧ (batchStopE true dirtyState).1.needNotify = true
    ∧ (batchStopE true dirtyState).1.notifyCount = 1
    ∧ (batchStopE false (batchStopE true dirtyState).1).1.notifyCount = 2 := by
  decide

/-- Claim C2 as amended: if the notification callback invoked by `batch_stop`
raises, the exception propagates and the dirty flag is NOT cleared, so the
next `batch_stop` after a batch with no further changes invokes the callback
again; only a `batch_stop` whose callback returns normally clears the
flag. -/
theorem c2_batch_stop_exception (s : MirrorState) (h : s.needNotify = true) :
    (batchStopE true s).2 = true
    ∧ (batchStopE true s).1.needNotify = true
    ∧ (batchStopE true s).1.notifyCount = s.notifyCount + 1
    ∧ (batchStopE false (batchStopE true s).1).1.notifyCount = s.notifyCount + 2
    ∧ (batchStopE false (batchStopE true s).1).1.needNotify = false
    ∧ (batchStopE false s).1.needNotify = false := by
  simp [batchStopE, h]

/-- Witness for C2's amended theorem at the concrete dirty state. -/
theorem c2_batch_stop_exception_witness :
    (batchStopE true dirtyState).2 = true
    ∧ (batchStopE true dirtyState).1.needNotify = true
    ∧ (batchStopE false (batchStopE true dirtyState).1).1.notifyCount = 2 := by
  have h := c2_batch_stop_exception dirtyState (by decide)
  exact ⟨h.1, h.2.1, by rw [h.2.2.2.1]; decide⟩

/-- Claim C10: a `sensor_added` whose rename rule yields an empty list of
destination names inserts nothing into any of the three registries, yet still
sets the dirty flag (the assignment sits outside the per-name loop), so a
batch containing only such adds invokes the notification callback once at
`batch_stop`. -/
theorem c10_empty_rename (cfg : MirrorConfig) (name : String) (st : SType)
    (s : MirrorState) (hren : rewriteName cfg name = [])
    (hfil : cfg.filter name st = true) :
    (sensorAdded cfg name st s).serverSensors = s.serverSensors
    ∧ (sensorAdded cfg name st s).origSensors = s.origSensors
    ∧ (sensorAdded cfg name st s).sensors = s.sensors
    ∧ (sensorAdded cfg name st s).needNotify = true
    ∧ (run cfg s [Event.add name st, Event.batchStop]).notifyCount
        = s.notifyCount + 1 := by
  refine ⟨?_, ?_, ?_, ?_, ?_⟩ <;>
    simp [run, step, sensorAdded, hfil, hren, batchStopE]

/-- A configuration whose only rename entry maps `"x"` to the empty list. -/
def cfgEmptyRename : MirrorConfig :=
  { pfx := "p-", renames := [("x", [])], rewriteGuiUrls := none,
    filter := fun _ _ => true, closeAction := CloseAction.remove }

/-- Witness for C10 at a concrete input: adding `"x"` under an empty rename
list leaves all registries empty but notifies once at `batch_stop`. -/
theorem c10_empty_rename_witness :
    (sensorAdded cfgEmptyRename "x" (SType.otherT "0") initState).serverSensors = []
    ∧ (sensorAdded cfgEmptyRename "x" (SType.otherT "0") initState).needNotify = true
    ∧ (run cfgEmptyRename initState
        [Event.add "x" (SType.otherT "0"), Event.batchStop]).notifyCount = 1 := by
  have h := c10_empty_rename cfgEmptyRename "x" (SType.otherT "0") initState
    (by decide) rfl
  exact ⟨h.1, h.2.2.2.1, h.2.2.2.2⟩

/-- Events that may occur inside a batch (everything except the batch
boundary itself and the synthetic CLOSED batch). -/
def batchFree : Event → Bool
  | .batchStop => false
  | .stateClosed => false
  | _ => true

theorem step_batchFree (cfg : MirrorConfig) (s : MirrorState) (e : Event)
    (he : batchFree e = true) :
    (step cfg s e).notifyCount = s.notifyCount
    ∧ (step cfg s e).needNotify = (s.needNotify || dirties cfg e) := by
  cases e with
  | add name st =>
      by_cases hf : cfg.filter name st = true
      · simp [step, sensorAdded, hf, dirties]
      · have hf2 : cfg.filter name st = false := by
          cases hv : cfg.filter name st
          · rfl
          · exact absurd hv hf
        simp [step, sensorAdded, hf2, dirties]
  | remove name =>
      by_cases hr : (rewriteName cfg name).isEmpty = true
      · simp [step, sensorRemoved, dirties, hr]
      · have hr2 : (rewriteName cfg name).isEmpty = false := by
          cases hv : (rewriteName cfg name).isEmpty
          · rfl
          · exact absurd hv hr
        simp [step, sensorRemoved, dirties, hr2]
  | update name v st ts => simp [step, sensorUpdated, dirties]
  | batchStop => simp [batchFree] at he
  | stateClosed => simp [batchFree] at he

theorem run_append (cfg : MirrorConfig) (s : MirrorState) (t1 t2 : List Event) :
    run cfg s (t1 ++ t2) = run cfg (run cfg s t1) t2 := by
  simp [run, List.foldl_append]

theorem run_batchFree_notify (cfg : MirrorConfig) (tr : List Event)
    (h : ∀ e ∈ tr, batchFree e = true) (s : MirrorState) :
    (run cfg s tr).notifyCount = s.notifyCount
    ∧ (run cfg s tr).needNotify = (s.needNotify || tr.any (dirties cfg)) := by
  induction tr generalizing s with
  | nil => simp [run]
  | cons e t ih =>
      have he : batchFree e = true := h e (List.mem_cons_self e t)
      have ht : ∀ x ∈ t, batchFree x = true :=
        fun x hx => h x (List.mem_cons_of_mem _ hx)
      have hstep := step_batchFree cfg s e he
      have ihs := ih ht (step cfg s e)
      have hrun : run cfg s (e :: t) = run cfg (step cfg s e) t := by
        simp [run]
      constructor
      · rw [hrun, ihs.1, hstep.1]
      · rw [hrun, ihs.2, hstep.2]
        simp [Bool.or_assoc]

/-- A plain configuration: empty name prefix, no renames, no rewriting, an
accept-all filter. -/
def cfgPlain : MirrorConfig :=
  { pfx := "", renames := [], rewriteGuiUrls := none,
    filter := fun _ _ => true, closeAction := CloseAction.remove }

/-- Ten sensor additions inside a single batch. -/
def tenAdds : List Event :=
  [Event.add "s0" (SType.otherT "0"), Event.add "s1" (SType.otherT "0"),
   Event.add "s2" (SType.otherT "0"), Event.add "s3" (SType.otherT "0"),
   Event.add "s4" (SType.otherT "0"), Event.add "s5" (SType.otherT "0"),
   Event.add "s6" (SType.otherT "0"), Event.add "s7" (SType.otherT "0"),
   Event.add "s8" (SType.otherT "0"), Event.add "s9" (SType.otherT "0")]

/-- The same ten additions, one per batch. -/
def tenBatches : List Event :=
  [Event.add "s0" (SType.otherT "0"), Event.batchStop,
   Event.add "s1" (SType.otherT "0"), Event.batchStop,
   Event.add "s2" (SType.otherT "0"), Event.batchStop,
   Event.add "s3" (SType.otherT "0"), Event.batchStop,
   Event.add "s4" (SType.otherT "0"), Event.batchStop,
   Event.add "s5" (SType.otherT "0"), Event.batchStop,
   Event.add "s6" (SType.otherT "0"), Event.batchStop,
   Event.add "s7" (SType.otherT "0"), Event.batchStop,
   Event.add "s8" (SType.otherT "0"), Event.batchStop,
   Event.add "s9" (SType.otherT "0"), Event.batchStop]

/-- A configuration with gui-url rewriting enabled: the rewrite appends `!`
to the shadow value. -/
def cfgGui : MirrorConfig :=
  { pfx := "", renames := [], rewriteGuiUrls := some (fun _ sd => sd.value ++ "!"),
    filter := fun _ _ => true, closeAction := CloseAction.remove }

/-- First batch of the C4 counterexample: add a `.gui-urls` byte sensor. -/
def guiTrace1 : List Event :=
  [Event.add "s.gui-urls" SType.bytesT, Event.batchStop]

/-- Second batch: an update whose gui-url rewrite changes the exported
value. -/
def guiTrace2 : List Event :=
  guiTrace1 ++ [Event.update "s.gui-urls" "V" Status.nominal 1, Event.batchStop]

/-- Claim C4 counterexample: `sensor_updated` never sets the dirty flag, so a
batch whose only event is a value-affecting gui-url rewrite does NOT invoke
the notification callback.  After the first batch (one add) the callback has
run once and the exported value is `"!"`; the second batch's update changes
the exported value to `"V!"`, yet the count stays 1 — the claim requires a
second invocation. -/
theorem c4_counterexample :
    (run cfgGui initState guiTrace1).notifyCount = 1
    ∧ ((alGet "s.gui-urls" (run cfgGui initState guiTrace1).serverSensors).map
        SensorData.value = some (String.mk ['!']))
    ∧ ((alGet "s.gui-urls" (run cfgGui initState guiTrace2).serverSensors).map
        SensorData.value = some (String.mk ['V', '!']))
    ∧ (run cfgGui initState guiTrace2).notifyCount = 1 := by
  refine ⟨?_, ?_, ?_, ?_⟩ <;> decide

/-- Claim C4 as amended: `batch_stop` invokes the notification callback
exactly once if any filter-passing sensor add, or any sensor remove with a
non-empty rename list, occurred since the previous `batch_stop`, and does not
invoke it otherwise; sensor updates — including value-affecting gui-url
rewrites — do not set the dirty flag.  Ten adds in one batch notify once; ten
adds in ten batches notify ten times. -/
theorem c4_batch_coalescing :
    (∀ (cfg : MirrorConfig) (s : MirrorState) (tr : List Event),
      (∀ e ∈ tr, batchFree e = true) → s.needNotify = false →
      (run cfg s tr).notifyCount = s.notifyCount
      ∧ (run cfg s (tr ++ [Event.batchStop])).notifyCount
          = s.notifyCount + (if tr.any (dirties cfg) then 1 else 0))
    ∧ (run cfgPlain initState (tenAdds ++ [Event.batchStop])).notifyCount = 1
    ∧ (run cfgPlain initState tenBatches).notifyCount = 10 := by
  refine ⟨?_, by decide, by decide⟩
  intro cfg s tr h hnn
  have hr := run_batchFree_notify cfg tr h s
  refine ⟨hr.1, ?_⟩
  rw [run_append]
  have hbs : run cfg (run cfg s tr) [Event.batchStop]
      = (batchStopE false (run cfg s tr)).1 := by
    simp [run, step]
  rw [hbs]
  by_cases hd : tr.any (dirties cfg) = true
  · have hnd : (run cfg s tr).needNotify = true := by
      rw [hr.2, hnn, hd]; rfl
    simp [batchStopE, hnd, hr.1, hd]
  · have hd2 : tr.any (dirties cfg) = false := by
      cases hv : tr.any (dirties cfg)
      · rfl
      · exact absurd hv hd
    have hnd : (run cfg s tr).needNotify = false := by
      rw [hr.2, hnn, hd2]; rfl
    simp [batchStopE, hnd, hr.1, hd2]

/-- Witness for C4's amended theorem at a concrete input: one batch with a
single add notifies exactly once. -/
theorem c4_batch_coalescing_witness :
    (run cfgPlain initState [Event.add "a" (SType.otherT "0")]).notifyCount = 0
    ∧ (run cfgPlain initState
        ([Event.add "a" (SType.otherT "0")] ++ [Event.batchStop])).notifyCount = 1 := by
  have h := c4_batch_coalescing.1 cfgPlain initState
    [Event.add "a" (SType.otherT "0")] (by decide) rfl
  refine ⟨h.1, ?_⟩
  rw [h.2]
  decide

/-! ## Claims about the PrometheusWatcher observer map -/

/-- The code's own `_observers` invariant: outside a callback, every sensor
name in the watched registry is a key of the observer map, bound to the
factory's verdict for it (a stored `None` when the factory declined). -/
def pwInv (factory : String → Bool) (w : PWState) : Prop :=
  ∀ n, alGet n w.observers
    = if n ∈ w.registry then some (factory n) else none

theorem registry_foldl_watcherAdded (factory : String → Bool)
    (l : List String) (w : PWState) :
    (l.foldl (fun w k => watcherAdded factory k w) w).registry = w.registry := by
  induction l generalizing w with
  | nil => rfl
  | cons a t ih =>
      rw [List.foldl_cons, ih]
      rfl

theorem observers_foldl_watcherAdded (factory : String → Bool)
    (l : List String) (w : PWState) (n : String) :
    alGet n (l.foldl (fun w k => watcherAdded factory k w) w).observers
      = if n ∈ l then some (factory n) else alGet n w.observers := by
  induction l generalizing w with
  | nil => simp
  | cons a t ih =>
      rw [List.foldl_cons, ih]
      by_cases hnt : n ∈ t
      · simp [hnt]
      · by_cases hna : n = a
        · subst hna
          simp [hnt, watcherAdded, alGet_alSet]
        · simp [hnt, hna, watcherAdded, alGet_alSet]

theorem pwInv_init (factory : String → Bool) (initial : List String) :
    pwInv factory (pwInit factory initial) := by
  intro n
  unfold pwInit
  rw [observers_foldl_watcherAdded, registry_foldl_watcherAdded]
  by_cases h : n ∈ initial
  · simp [h]
  · simp [h, alGet]

theorem pwInv_step (factory : String → Bool) (w : PWState) (e : PWEvent)
    (h : pwInv factory w) : pwInv factory (pwStep factory w e) := by
  intro n
  cases e with
  | addS name =>
      simp only [pwStep, watcherAdded, alGet_alSet]
      by_cases hn : n = name
      · subst hn; simp [List.mem_insert_iff]
      · rw [if_neg hn, h n]
        by_cases hm : n ∈ w.registry
        · simp [List.mem_insert_iff, hm, hn]
        · simp [List.mem_insert_iff, hm, hn]
  | removeS name =>
      by_cases hp : name ∈ w.registry
      · simp only [pwStep, hp, if_pos, watcherRemoved, alGet_alPop]
        by_cases hn : n = name
        · subst hn
          simp [List.mem_filter]
        · rw [if_neg hn, h n]
          by_cases hm : n ∈ w.registry
          · simp [List.mem_filter, hm, hn]
          · simp [List.mem_filter, hm]
      · simpa [pwStep, hp] using h n

theorem pwInv_run (factory : String → Bool) (w : PWState)
    (h : pwInv factory w) (evs : List PWEvent) :
    pwInv factory (pwRun factory w evs) := by
  induction evs generalizing w with
  | nil => exact h
  | cons e t ih => exact ih (pwStep factory w e) (pwInv_step factory w e h)

/-- Claim C3 counterexample: with a factory that declines every sensor,
adding a sensor `"s"` still creates the key `"s"` in the observer map (bound
to a stored `None`), whereas the claim says names for which the factory
returned nothing are absent from the key set. -/
theorem c3_counterexample :
    "s" ∈ ((pwRun (fun _ => false) (pwInit (fun _ => false) [])
        [PWEvent.addS "s"]).observers.map Prod.fst)
    ∧ alGet "s" (pwRun (fun _ => false) (pwInit (fun _ => false) [])
        [PWEvent.addS "s"]).observers = some false := by
  refine ⟨?_, ?_⟩ <;> decide

/-- Claim C3 as amended: outside a single add/remove callback's execution
(and before `close()`), the key set of the observer map equals the set of ALL
sensor names present in the watched registry; a name for which the factory
returned no descriptor is present as a key bound to no observer (`None`),
and every present name is bound to exactly the factory's verdict for it. -/
theorem c3_observer_keys (factory : String → Bool) (initial : List String)
    (evs : List PWEvent) (n : String) :
    ((alGet n (pwRun factory (pwInit factory initial) evs).observers).isSome
      ↔ n ∈ (pwRun factory (pwInit factory initial) evs).registry)
    ∧ (n ∈ (pwRun factory (pwInit factory initial) evs).registry →
        alGet n (pwRun factory (pwInit factory initial) evs).observers
          = some (factory n)) := by
  have h := pwInv_run factory (pwInit factory initial)
    (pwInv_init factory initial) evs n
  constructor
  · rw [h]
    by_cases hm : n ∈ (pwRun factory (pwInit factory initial) evs).registry
    · simp [hm]
    · simp [hm]
  · intro hm
    rw [h, if_pos hm]

/-- Witness for C3's amended theorem at a concrete input: after construction
over registry `["yes", "no"]` with a factory accepting only `"yes"`, the
accepted name is bound to an observer and the declined one to `None`. -/
theorem c3_observer_keys_witness :
    alGet "yes" (pwRun (fun n => n == "yes")
      (pwInit (fun n => n == "yes") ["yes", "no"]) []).observers = some true
    ∧ alGet "no" (pwRun (fun n => n == "yes")
      (pwInit (fun n => n == "yes") ["yes", "no"]) []).observers = some false := by
  constructor
  · have h := (c3_observer_keys (fun n => n == "yes") ["yes", "no"] [] "yes").2
      (by decide)
    rw [h]
    decide
  · have h := (c3_observer_keys (fun n => n == "yes") ["yes", "no"] [] "no").2
      (by decide)
    rw [h]
    decide

/-! ## Claims about the mirrored name sets (`SensorWatcher`) -/

/-- Configured rename rules produce pairwise disjoint destination-name sets
for distinct upstream names (colliding renames are declared undefined
behaviour by the configuration layer). -/
def disjointRenames (cfg : MirrorConfig) : Prop :=
  ∀ n1 n2 j, n1 ≠ n2 → j ∈ rewriteName cfg n1 → j ∉ rewriteName cfg n2

/-- The mirrored-name invariant: a destination name is bound in the
destination registry (and in the shadow registry) exactly when it is a rename
target of some currently-mirrored upstream name. -/
def mirrorKeysInv (cfg : MirrorConfig) (s : MirrorState) : Prop :=
  ∀ j, ((alGet j s.serverSensors).isSome = true
          ↔ ∃ n ∈ s.upstream, j ∈ rewriteName cfg n)
      ∧ ((alGet j s.origSensors).isSome = true
          ↔ ∃ n ∈ s.upstream, j ∈ rewriteName cfg n)

theorem batchStopE_frame (b : Bool) (s : MirrorState) :
    (batchStopE b s).1.serverSensors = s.serverSensors
    ∧ (batchStopE b s).1.origSensors = s.origSensors
    ∧ (batchStopE b s).1.sensors = s.sensors
    ∧ (batchStopE b s).1.upstream = s.upstream := by
  unfold batchStopE
  by_cases h : s.needNotify = true
  · cases b <;> simp [h]
  · have h2 : s.needNotify = false := by
      cases hv : s.needNotify
      · rfl
      · exact absurd hv h
    simp [h2]

theorem addKeys_iff (cfg : MirrorConfig) (name : String)
    (upstream : List String) (m : List (String × SensorData))
    (g : String → SensorData) (j : String)
    (hm : (alGet j m).isSome = true ↔ ∃ n ∈ upstream, j ∈ rewriteName cfg n) :
    (alGet j ((rewriteName cfg name).foldl
        (fun m rn => alSet rn (g rn) m) m)).isSome = true
      ↔ ∃ n ∈ upstream.insert name, j ∈ rewriteName cfg n := by
  rw [alGet_foldl_alSet]
  by_cases hj : j ∈ rewriteName cfg name
  · rw [if_pos hj]
    simp only [Option.isSome_some]
    constructor
    · intro _
      exact ⟨name, List.mem_insert_self name upstream, hj⟩
    · intro _; trivial
  · rw [if_neg hj, hm]
    constructor
    · rintro ⟨n, hn, hjn⟩
      exact ⟨n, List.mem_insert_of_mem hn, hjn⟩
    · rintro ⟨n, hn, hjn⟩
      rcases List.mem_insert_iff.mp hn with rfl | hn2
      · exact absurd hjn hj
      · exact ⟨n, hn2, hjn⟩

theorem removeKeys_iff (cfg : MirrorConfig) (hd : disjointRenames cfg)
    (name : String) (upstream : List String)
    (m : List (String × SensorData)) (j : String)
    (hm : (alGet j m).isSome = true ↔ ∃ n ∈ upstream, j ∈ rewriteName cfg n) :
    (alGet j ((rewriteName cfg name).foldl
        (fun m rn => alPop rn m) m)).isSome = true
      ↔ ∃ n ∈ upstream.filter (fun x => x != name), j ∈ rewriteName cfg n := by
  rw [alGet_foldl_alPop]
  by_cases hj : j ∈ rewriteName cfg name
  · rw [if_pos hj]
    simp only [Option.isSome_none]
    constructor
    · intro hfalse; cases hfalse
    · rintro ⟨n, hn, hjn⟩
      rcases List.mem_filter.mp hn with ⟨hn2, hne⟩
      have hne2 : n ≠ name := by simpa using hne
      exact absurd hj (hd n name j hne2 hjn)
  · rw [if_neg hj, hm]
    constructor
    · rintro ⟨n, hn, hjn⟩
      have hne : n ≠ name := by
        rintro rfl
        exact hj hjn
      exact ⟨n, List.mem_filter.mpr ⟨hn, by simpa using hne⟩, hjn⟩
    · rintro ⟨n, hn, hjn⟩
      exact ⟨n, (List.mem_filter.mp hn).1, hjn⟩

theorem mirrorKeysInv_init (cfg : MirrorConfig) :
    mirrorKeysInv cfg initState := by
  intro j
  constructor <;> simp [initState, alGet]

theorem mirrorKeysInv_step (cfg : MirrorConfig) (hd : disjointRenames cfg)
    (s : MirrorState) (h : mirrorKeysInv cfg s) (e : Event)
    (he : e ≠ Event.stateClosed) :
    mirrorKeysInv cfg (step cfg s e) := by
  cases e with
  | add name st =>
      by_cases hf : cfg.filter name st = true
      · intro j
        simp only [step, sensorAdded, hf, if_true]
        exact ⟨addKeys_iff cfg name s.upstream s.serverSensors _ j (h j).1,
               addKeys_iff cfg name s.upstream s.origSensors _ j (h j).2⟩
      · have hf2 : cfg.filter name st = false := by
          cases hv : cfg.filter name st
          · rfl
          · exact absurd hv hf
        intro j
        simpa [step, sensorAdded, hf2] using h j
  | remove name =>
      intro j
      simp only [step, sensorRemoved]
      exact ⟨removeKeys_iff cfg hd name s.upstream s.serverSensors j (h j).1,
             removeKeys_iff cfg hd name s.upstream s.origSensors j (h j).2⟩
  | update name v st ts =>
      intro j
      simp only [step, sensorUpdated]
      constructor
      · rw [alGet_foldl_alUpdate_isSome]
        exact (h j).1
      · rw [alGet_foldl_alUpdate_isSome]
        exact (h j).2
  | batchStop =>
      intro j
      have hfr := batchStopE_frame false s
      simp only [step]
      rw [hfr.1, hfr.2.1, hfr.2.2.2]
      exact h j
  | stateClosed => exact absurd rfl he

theorem mirrorKeysInv_run (cfg : MirrorConfig) (hd : disjointRenames cfg)
    (tr : List Event) (hc : Event.stateClosed ∉ tr) (s : MirrorState)
    (h : mirrorKeysInv cfg s) : mirrorKeysInv cfg (run cfg s tr) := by
  induction tr generalizing s with
  | nil => exact h
  | cons e t ih =>
      have he : e ≠ Event.stateClosed := by
        intro heq
        exact hc (heq ▸ List.mem_cons_self e t)
      have ht : Event.stateClosed ∉ t := fun hx => hc (List.mem_cons_of_mem _ hx)
      have hrun : run cfg s (e :: t) = run cfg (step cfg s e) t := by
        simp [run]
      rw [hrun]
      exact ih ht (step cfg s e) (mirrorKeysInv_step cfg hd s h e he)

/-- A fan-out configuration: upstream `"x"` is renamed to `["a", "b"]`, every
other name gets the `"p-"` prefix. -/
def cfgFan : MirrorConfig :=
  { pfx := "p-", renames := [("x", ["a", "b"])], rewriteGuiUrls := none,
    filter := fun _ _ => true, closeAction := CloseAction.remove }

/-- Add `"x"` and set its reading to value `"7"`, status NOMINAL,
timestamp 3. -/
def fanTrace1 : List Event :=
  [Event.add "x" (SType.otherT "0"), Event.update "x" "7" Status.nominal 3]

/-- The same, then remove `"x"`. -/
def fanTrace2 : List Event := fanTrace1 ++ [Event.remove "x"]

/-- Claim C7: outside an in-progress batch (and with pairwise-disjoint rename
targets, as required of the configuration layer), the destination names bound
in the destination registry — and likewise the shadow registry — are exactly
the image of the currently-mirrored (filter-passing) upstream names under the
rename rule.  Concretely, for `"x"` renamed to `["a", "b"]`: after an add and
an update both `"a"` and `"b"` are present with identical sensor records
(value/status/timestamp), and removing `"x"` removes both from both
registries. -/
theorem c7_mirror_image :
    (∀ (cfg : MirrorConfig), disjointRenames cfg →
      ∀ (tr : List Event), Event.stateClosed ∉ tr →
      ∀ j, ((alGet j (run cfg initState tr).serverSensors).isSome = true
              ↔ ∃ n ∈ (run cfg initState tr).upstream, j ∈ rewriteName cfg n)
          ∧ ((alGet j (run cfg initState tr).origSensors).isSome = true
              ↔ ∃ n ∈ (run cfg initState tr).upstream, j ∈ rewriteName cfg n))
    ∧ (alGet "a" (run cfgFan initState fanTrace1).serverSensors
        = alGet "b" (run cfgFan initState fanTrace1).serverSensors)
    ∧ ((alGet "a" (run cfgFan initState fanTrace1).serverSensors).map
        SensorData.value = some "7")
    ∧ (alGet "a" (run cfgFan initState fanTrace1).origSensors
        = alGet "b" (run cfgFan initState fanTrace1).origSensors)
    ∧ ((alGet "a" (run cfgFan initState fanTrace1).origSensors).map
        SensorData.value = some "7")
    ∧ alGet "a" (run cfgFan initState fanTrace2).serverSensors = none
    ∧ alGet "b" (run cfgFan initState fanTrace2).serverSensors = none
    ∧ alGet "a" (run cfgFan initState fanTrace2).origSensors = none
    ∧ alGet "b" (run cfgFan initState fanTrace2).origSensors = none := by
  refine ⟨?_, rfl, rfl, rfl, rfl, rfl, rfl, rfl, rfl⟩
  intro cfg hd tr hc j
  exact mirrorKeysInv_run cfg hd tr hc initState (mirrorKeysInv_init cfg) j

theorem cfgFan_rewriteName (n : String) :
    rewriteName cfgFan n = if n = "x" then ["a", "b"] else ["p-" ++ n] := by
  by_cases h : n = "x"
  · subst h; rfl
  · simp [rewriteName, cfgFan, alGet, h]

theorem cfgFan_disjoint : disjointRenames cfgFan := by
  intro n1 n2 j hne h1 h2
  rw [cfgFan_rewriteName] at h1 h2
  by_cases e1 : n1 = "x" <;> by_cases e2 : n2 = "x"
  · exact hne (e1.trans e2.symm)
  · subst e1
    rw [if_pos rfl] at h1
    rw [if_neg e2] at h2
    have hj2 : j = "p-" ++ n2 := by simpa using h2
    rcases (by simpa using h1 : j = "a" ∨ j = "b") with rfl | rfl
    · have hdata : (['a'] : List Char) = 'p' :: '-' :: n2.data :=
        congrArg String.data hj2
      injection hdata with hc _
      exact absurd hc (by decide)
    · have hdata : (['b'] : List Char) = 'p' :: '-' :: n2.data :=
        congrArg String.data hj2
      injection hdata with hc _
      exact absurd hc (by decide)
  · subst e2
    rw [if_neg e1] at h1
    rw [if_pos rfl] at h2
    have hj1 : j = "p-" ++ n1 := by simpa using h1
    rcases (by simpa using h2 : j = "a" ∨ j = "b") with rfl | rfl
    · have hdata : (['a'] : List Char) = 'p' :: '-' :: n1.data :=
        congrArg String.data hj1
      injection hdata with hc _
      exact absurd hc (by decide)
    · have hdata : (['b'] : List Char) = 'p' :: '-' :: n1.data :=
        congrArg String.data hj1
      injection hdata with hc _
      exact absurd hc (by decide)
  · rw [if_neg e1] at h1
    rw [if_neg e2] at h2
    have hj1 : j = "p-" ++ n1 := by simpa using h1
    have hj2 : j = "p-" ++ n2 := by simpa using h2
    have happ : "p-" ++ n1 = "p-" ++ n2 := hj1.symm.trans hj2
    have hdata : 'p' :: '-' :: n1.data = 'p' :: '-' :: n2.data :=
      congrArg String.data happ
    injection hdata with _ hd1
    injection hd1 with _ hd2
    apply hne
    cases n1
    cases n2
    cases hd2
    rfl

/-- Witness for C7's general invariant at a concrete input: after
`fanTrace1`, the fan-out target `"a"` is bound in the destination registry
(being a rename target of the mirrored `"x"`), while `"p-y"` is not. -/
theorem c7_mirror_image_witness :
    (alGet "a" (run cfgFan initState fanTrace1).serverSensors).isSome = true
    ∧ (alGet "p-y" (run cfgFan initState fanTrace1).serverSensors).isSome
        = false := by
  constructor
  · have h := c7_mirror_image.1 cfgFan cfgFan_disjoint fanTrace1 (by decide) "a"
    refine h.1.mpr ⟨"x", ?_, ?_⟩
    · decide
    · rw [cfgFan_rewriteName]
      decide
  · have h := c7_mirror_image.1 cfgFan cfgFan_disjoint fanTrace1 (by decide) "p-y"
    cases hv : (alGet "p-y" (run cfgFan initState fanTrace1).serverSensors).isSome
    · rfl
    · exfalso
      rcases h.1.mp hv with ⟨n, hn, hj⟩
      have hup : (run cfgFan initState fanTrace1).upstream = ["x"] := by decide
      rw [hup] at hn
      have hnx : n = "x" := by simpa using hn
      subst hnx
      rw [cfgFan_rewriteName] at hj
      exact absurd hj (by decide)

/-! ## Claims about the CLOSED transition (`_mark_unreachable`) -/

/-- Claim C8: on the CLOSED transition with CloseAction = MARK_UNREACHABLE,
every mirrored destination name has `_mark_unreachable` applied to its sensor
in BOTH the destination and the shadow registry, where `_mark_unreachable`
behaves as: a rename target of `"device-status"` of discrete type with
`"fail"` in its domain is set to value `"fail"` with status ERROR; a
device-status discrete sensor without `"fail"` falls through to the generic
path; every other sensor is left alone if already UNREACHABLE and otherwise
reset to its type's default value with status UNREACHABLE. -/
theorem c8_close_unreachable :
    (∀ (cfg : MirrorConfig) (name : String) (sd : SensorData)
        (dom : List String),
      (name ∈ rewriteName cfg "device-status" → sd.stype = SType.discreteT dom →
        "fail" ∈ dom →
        markUnreachable cfg name sd
          = { sd with value := "fail", status := Status.error })
      ∧ (name ∈ rewriteName cfg "device-status" → sd.stype = SType.discreteT dom →
        "fail" ∉ dom →
        markUnreachable cfg name sd = markUnreachableGeneric sd)
      ∧ (¬ (name ∈ rewriteName cfg "device-status"
            ∧ sd.stype.isDiscrete = true) →
        markUnreachable cfg name sd = markUnreachableGeneric sd)
      ∧ (sd.status ≠ Status.unreachable →
        markUnreachableGeneric sd
          = { sd with value := sd.stype.defaultVal, status := Status.unreachable })
      ∧ (sd.status = Status.unreachable → markUnreachableGeneric sd = sd))
    ∧ (∀ (cfg : MirrorConfig) (s : MirrorState) (name : String),
        cfg.closeAction = CloseAction.unreachable →
        (s.sensors.map Prod.fst).Nodup →
        name ∈ s.sensors.map Prod.fst →
        alGet name (stateUpdatedClosed cfg s).serverSensors
          = (alGet name s.serverSensors).map (markUnreachable cfg name)
        ∧ alGet name (stateUpdatedClosed cfg s).origSensors
          = (alGet name s.origSensors).map (markUnreachable cfg name)) := by
  constructor
  · intro cfg name sd dom
    refine ⟨?_, ?_, ?_, ?_, ?_⟩
    · intro h1 h2 h3
      have hdisc : sd.stype.isDiscrete = true := by rw [h2]; rfl
      have hfv : sd.stype.failValue = some "fail" := by
        rw [h2]; simp [SType.failValue, h3]
      simp [markUnreachable, h1, hdisc, hfv]
    · intro h1 h2 h3
      have hdisc : sd.stype.isDiscrete = true := by rw [h2]; rfl
      have hfv : sd.stype.failValue = none := by
        rw [h2]; simp [SType.failValue, h3]
      simp [markUnreachable, h1, hdisc, hfv]
    · intro h1
      simp [markUnreachable, h1]
    · intro h1
      simp [markUnreachableGeneric, h1]
    · intro h1
      simp [markUnreachableGeneric, h1]
  · intro cfg s name hca hnd hmem
    have hfr := batchStopE_frame false
      (match cfg.closeAction with
       | CloseAction.unreachable =>
          { s with
            serverSensors := (s.sensors.map Prod.fst).foldl
              (fun m n => alUpdate n (markUnreachable cfg n) m) s.serverSensors
            origSensors := (s.sensors.map Prod.fst).foldl
              (fun m n => alUpdate n (markUnreachable cfg n) m) s.origSensors }
       | CloseAction.remove =>
          { s with
            serverSensors := (s.sensors.map Prod.fst).foldl
              (fun m n => alPop n m) s.serverSensors
            origSensors := (s.sensors.map Prod.fst).foldl
              (fun m n => alPop n m) s.origSensors
            needNotify := if (s.sensors.map Prod.fst).isEmpty then s.needNotify
              else true })
    constructor
    · rw [stateUpdatedClosed, hfr.1, hca]
      rw [alGet_foldl_alUpdate_nodup (markUnreachable cfg) _ hnd]
      rw [if_pos hmem]
    · rw [stateUpdatedClosed, hfr.2.1, hca]
      rw [alGet_foldl_alUpdate_nodup (markUnreachable cfg) _ hnd]
      rw [if_pos hmem]

/-- A concrete discrete device-status sensor with `"fail"` in its domain. -/
def sdDevice : SensorData :=
  { stype := SType.discreteT ["ok", "fail"], value := "ok",
    status := Status.nominal, timestamp := 0 }

/-- A configuration with CloseAction = MARK_UNREACHABLE and empty prefix. -/
def cfgUnr : MirrorConfig :=
  { pfx := "", renames := [], rewriteGuiUrls := none,
    filter := fun _ _ => true, closeAction := CloseAction.unreachable }

/-- A mirror state holding a single mirrored device-status sensor. -/
def closedState : MirrorState :=
  { upstream := ["device-status"],
    sensors := [("device-status", sdDevice)],
    origSensors := [("device-status", sdDevice)],
    serverSensors := [("device-status", sdDevice)],
    needNotify := false, notifyCount := 0 }

/-- Witness for C8 at a concrete input: on CLOSED, a device-status sensor
with `"fail"` in its domain is set to `"fail"`/ERROR, in both registries. -/
theorem c8_close_unreachable_witness :
    markUnreachable cfgUnr "device-status" sdDevice
      = { stype := SType.discreteT ["ok", "fail"], value := "fail",
          status := Status.error, timestamp := 0 }
    ∧ alGet "device-status" (stateUpdatedClosed cfgUnr closedState).serverSensors
        = some (markUnreachable cfgUnr "device-status" sdDevice)
    ∧ alGet "device-status" (stateUpdatedClosed cfgUnr closedState).origSensors
        = some (markUnreachable cfgUnr "device-status" sdDevice) := by
  have h1 := (c8_close_unreachable.1 cfgUnr "device-status" sdDevice
    ["ok", "fail"]).1 (by decide) rfl (by decide)
  have h2 := c8_close_unreachable.2 cfgUnr closedState "device-status" rfl
    (by decide) (by decide)
  refine ⟨h1, ?_, ?_⟩
  · rw [h2.1]
    simp [closedState, alGet]
  · rw [h2.2]
    simp [closedState, alGet]

end SensorProxy
